import Mathlib

/-!
# VerseAi: verification of the streaming generation core

Shallow embedding of the VerseAi repository (a terminal/HTTP front-end over a
locally hosted text-generation service) and proofs about it.

Embedded source files:
- `src/locali.py` — `LocalI.generate_text`: the streaming decode loop over a
  newline-delimited JSON response body.
- `src/app.py` — the `/api/generate` HTTP route wrapper.
- `src/main.py` — `ChatBot`: history init, `_trim_history`, `_generate_response`.
- `src/workingModel/mainBotPrototypeOld.py` — the older `ChatBot` prototype with
  pair-wise history trimming and a cancellation event.

Machine integers do not occur; all counts are Nat. Fallible paths return
`Except`/`Option`. Stateful code is embedded as explicit state passing: each
embedded operation takes the conversation history and returns the updated one.
-/

set_option autoImplicit false

namespace VerseAi

/-- A chat role, as the `"role"` strings used throughout the sources
(`"system"`, `"user"`, `"assistant"`). -/
inductive Role where
  | system
  | user
  | assistant
deriving DecidableEq, Repr

/-- One history entry: the dict `{"role": r, "content": c}` used by
`src/main.py` and the prototype, and the message records of the conversation. -/
structure Message where
  role : Role
  content : String
deriving DecidableEq, Repr

/-- Shorthand for a system message. -/
def sysMsg (c : String) : Message := ⟨Role.system, c⟩

/-- Shorthand for a user message. -/
def userMsg (c : String) : Message := ⟨Role.user, c⟩

/-- Shorthand for an assistant message. -/
def asstMsg (c : String) : Message := ⟨Role.assistant, c⟩

/-! ## The response stream (`src/locali.py`, lines 37-45)

`LocalI.generate_text` iterates over the lines of the HTTP response body:

```python
async for line in response.content:
    if line:
        try:
            json_line = json.loads(line)
            if 'response' in json_line:
                self.conversation.add_message("assistant", json_line['response'])
                yield json_line['response']
        except json.JSONDecodeError:
            logging.error(...)
```

wrapped in `except aiohttp.ClientError` / `except Exception` handlers that log
and fall through (ending the generator). A stream line is embedded by which of
the code paths it takes:

- `emptyLine` — a falsy line, skipped by `if line:` without a parse attempt;
- `malformed` — `json.loads` raises `JSONDecodeError`: logged and skipped;
- `obj response done` — a parsed JSON object; `response` is the value of its
  `"response"` key when present, `done` records a truthy `"done"` key;
- `nonDict` — valid JSON that is not a container (for example `5` or `null`),
  so the membership test raises `TypeError`, caught by the outer blanket
  handler: the generator ends;
- `netError` — reading this line raises `aiohttp.ClientError`: caught by the
  outer handler, logged, and the generator ends. -/
inductive StreamLine where
  | emptyLine
  | malformed
  | obj (response : Option String) (done : Bool)
  | nonDict
  | netError
deriving DecidableEq, Repr

/-- The fragment sequence produced by the decode loop of
`LocalI.generate_text` (`src/locali.py` lines 37-45): one yielded string per
object line carrying a `"response"` key, processed in stream order; empty and
malformed lines are skipped; a `nonDict` or `netError` line ends the loop via
the outer exception handlers. The `done` flag is never inspected by the code. -/
def processLines : List StreamLine → List String
  | [] => []
  | StreamLine.emptyLine :: rest => processLines rest
  | StreamLine.malformed :: rest => processLines rest
  | StreamLine.obj (some txt) _ :: rest => txt :: processLines rest
  | StreamLine.obj none _ :: rest => processLines rest
  | StreamLine.nonDict :: _ => []
  | StreamLine.netError :: _ => []

/-- A line survives the blanket exception handlers (it is neither valid
non-container JSON nor a network read failure). -/
def StreamLine.benign : StreamLine → Bool
  | StreamLine.nonDict => false
  | StreamLine.netError => false
  | _ => true

/-- The `"response"` texts of the object lines that carry one, in stream
order. Reference extraction used to state what the decode loop produces on
abort-free streams. -/
def extractResponses (ls : List StreamLine) : List String :=
  ls.filterMap fun l =>
    match l with
    | StreamLine.obj (some txt) _ => some txt
    | _ => none

/-! ## `LocalI.generate_text` (`src/locali.py`, lines 22-49)

The conversation collaborator (`conversation.py`) is not part of `src/`.
Modelled from the spec: `append(role, content)` "adds message at the tail"
(spec section 4.1), so `Conversation.add_message` is embedded as list append
and the conversation itself as a `List Message`. -/

/-- The outcome of the HTTP POST issued by `generate_text`:
- `connError` — the endpoint is unreachable, `aiohttp` raises a
  `ClientConnectorError` (a `ClientError`);
- `response ok2xx lines` — the endpoint answered; `ok2xx` is whether the
  status is a success status (`raise_for_status` raises `ClientResponseError`,
  also a `ClientError`, exactly when it is not), and `lines` is the body. -/
inductive HttpResult where
  | connError
  | response (ok2xx : Bool) (lines : List StreamLine)
deriving DecidableEq, Repr

/-- The only exception `generate_text` can propagate to its caller. -/
inductive GenError where
  | sessionNotInitialized
deriving DecidableEq, Repr

deriving instance DecidableEq for Except

/-- `LocalI.generate_text` (`src/locali.py` lines 22-49), embedded as a
function from the session flag, the conversation, the prompt and the HTTP
outcome to the final conversation and either the propagated exception or the
list of yielded fragments.

Control flow of the source, in order:
1. `self.conversation.add_message("user", prompt)` — the user message is
   appended before anything else;
2. `if not self._session: raise RuntimeError(...)`;
3. the POST: a `ClientError` from connecting, from `raise_for_status()` on a
   non-2xx status, or from reading the body is caught by
   `except aiohttp.ClientError`, logged, and the generator ends (no exception
   reaches the caller); `except Exception` likewise absorbs the `TypeError`
   of a `nonDict` line;
4. each yielded fragment is also appended to the conversation as its own
   assistant message (line 42), one message per fragment. -/
def generate_text (sessionInit : Bool) (conv : List Message) (prompt : String)
    (http : HttpResult) : List Message × Except GenError (List String) :=
  let conv1 := conv ++ [userMsg prompt]
  if sessionInit then
    match http with
    | HttpResult.connError => (conv1, Except.ok [])
    | HttpResult.response ok2xx lines =>
        if ok2xx then
          let frags := processLines lines
          (conv1 ++ frags.map asstMsg, Except.ok frags)
        else (conv1, Except.ok [])
  else (conv1, Except.error GenError.sessionNotInitialized)

/-- The accumulation loop of `app.generate_text` (`src/app.py` lines 40-42):
`response = ""` then `response += text_chunk` per fragment. -/
def accumulateResponse (frags : List String) : String :=
  frags.foldl (fun acc chunk => acc ++ chunk) ""

/-! ## History trimming (`src/main.py`, lines 197-201)

```python
def _trim_history(self):
    current_tokens = sum(len(m["content"].split()) for m in self.history)
    while current_tokens > self.MAX_CONTEXT_TOKENS and len(self.history) > 2:
        removed = self.history.pop(1)
        current_tokens -= len(removed["content"].split())
```
-/

/-- `ChatBot.MAX_CONTEXT_TOKENS` (`src/main.py` line 98). -/
def MAX_CONTEXT_TOKENS : Nat := 12000

/-- Helper for `wordCount`: counts the maximal whitespace-free runs of a
character list; `inWord` records whether the previous character belonged to a
run already counted. -/
def countWordsAux : Bool → List Char → Nat
  | _, [] => 0
  | inWord, c :: cs =>
      if c.isWhitespace then countWordsAux false cs
      else (if inWord then 0 else 1) + countWordsAux true cs

/-- Python `len(s.split())`: `str.split()` with no argument splits on runs of
whitespace and drops empty pieces, so the length of the result is the number
of maximal whitespace-free nonempty runs of `s`. -/
def wordCount (s : String) : Nat :=
  countWordsAux false s.data

/-- `sum(len(m["content"].split()) for m in history)`: the estimated token
count of a history (`src/main.py` line 198). -/
def estTokens (h : List Message) : Nat :=
  (h.map fun m => wordCount m.content).sum

/-- The `while` loop of `_trim_history`, with the running counter
`current_tokens` passed explicitly: while the counter exceeds the ceiling and
more than two messages remain, `pop(1)` removes the message at index 1 and the
counter is decremented by its word count. Since only index 1 is ever removed,
the history is carried as its head `m0` plus its tail, and the loop recurses
structurally on the tail. -/
def trimAux (maxTokens : Nat) (m0 : Message) : Nat → List Message → List Message
  | cur, m1 :: rest =>
      if cur > maxTokens ∧ (m0 :: m1 :: rest).length > 2 then
        trimAux maxTokens m0 (cur - wordCount m1.content) rest
      else m0 :: m1 :: rest
  | _, [] => [m0]

/-- `ChatBot._trim_history` with the ceiling as a parameter, as in the spec
operation `trim(maxTokens)`: the counter starts from the recomputed estimate. -/
def trim (maxTokens : Nat) : List Message → List Message
  | [] => []
  | m0 :: t => trimAux maxTokens m0 (estTokens (m0 :: t)) t

/-- `ChatBot._trim_history` exactly as in `src/main.py`: `trim` at the fixed
ceiling `MAX_CONTEXT_TOKENS`. -/
def trim_history (h : List Message) : List Message :=
  trim MAX_CONTEXT_TOKENS h

/-- Helper for `trimSpec`, carried as head plus tail like `trimAux`, with the
estimate recomputed from the current history at each test of the guard. -/
def trimSpecAux (maxTokens : Nat) (m0 : Message) : List Message → List Message
  | m1 :: rest =>
      if estTokens (m0 :: m1 :: rest) > maxTokens ∧ (m0 :: m1 :: rest).length > 2 then
        trimSpecAux maxTokens m0 rest
      else m0 :: m1 :: rest
  | [] => [m0]

/-- The trim loop as the spec words it (section 4.1): "while estimated token
count > maxTokens and length > 2, remove the message at index 1", with the
estimated token count recomputed from the current history at each test. -/
def trimSpec (maxTokens : Nat) : List Message → List Message
  | [] => []
  | m0 :: t => trimSpecAux maxTokens m0 t

/-- `ChatBot.MAX_HISTORY` of the prototype
(`src/workingModel/mainBotPrototypeOld.py` line 67). -/
def MAX_HISTORY : Nat := 50

/-- Helper for `trimOld`: two consecutive `pop(1)` calls remove the messages
at indices 1 and 2 of `m0 :: tail`, so the loop drops the first two entries of
the tail while the length guard holds. -/
def trimOldAux (m0 : Message) : List Message → List Message
  | m1 :: m2 :: rest =>
      if (m0 :: m1 :: m2 :: rest).length > MAX_HISTORY * 2 + 1 then
        trimOldAux m0 rest
      else m0 :: m1 :: m2 :: rest
  | t => m0 :: t

/-- `ChatBot._trim_history` of the prototype
(`src/workingModel/mainBotPrototypeOld.py` lines 124-127):

```python
while len(self.history) > self.MAX_HISTORY * 2 + 1:
    self.history.pop(1)
    self.history.pop(1)
```
-/
def trimOld : List Message → List Message
  | [] => []
  | m0 :: t => trimOldAux m0 t

/-! ## One chat turn (`src/main.py`, lines 155-201)

`ChatBot._generate_response` appends the user message, then runs the blocking
`ollama.chat` call under the spinner. The embedding takes the outcome of that
region as an input:

- `completed r` — `_get_ollama_response` returned `r` (`None` when it caught
  an API or generation error and printed it);
- `interrupted` — a `KeyboardInterrupt` was raised while waiting (the
  operator pressed Ctrl-C): caught at line 167, the cancel event is set and
  "Operation cancelled" is printed. -/

/-- Outcome of the generation region of `ChatBot._generate_response`. -/
inductive TurnEvent where
  | completed (response : Option String)
  | interrupted
deriving DecidableEq, Repr

/-- What the operator is shown at the end of a turn of `src/main.py`:
the printed response, nothing (falsy or absent response), or the
"Operation cancelled" notice. -/
inductive TurnReport where
  | answered (text : String)
  | noReply
  | cancelledNotice
deriving DecidableEq, Repr

/-- `ChatBot._generate_response` (`src/main.py` lines 155-169) together with
`_handle_successful_response` (lines 186-188): append the user message; on a
truthy response append it as one assistant message and trim; on a falsy or
absent response do nothing further; on `KeyboardInterrupt` print the
cancellation notice and leave the history as it stands. -/
def generateTurn (history : List Message) (userInput : String) (ev : TurnEvent) :
    List Message × TurnReport :=
  let h := history ++ [userMsg userInput]
  match ev with
  | TurnEvent.interrupted => (h, TurnReport.cancelledNotice)
  | TurnEvent.completed none => (h, TurnReport.noReply)
  | TurnEvent.completed (some text) =>
      if text = "" then (h, TurnReport.noReply)
      else (trim_history (h ++ [asstMsg text]), TurnReport.answered text)

/-- What the prototype run loop shows at the end of a turn. -/
inductive TurnReportOld where
  | answeredOld (text : String)
  | cancelledOld
  | raisedOld (err : String)
deriving DecidableEq, Repr

/-- One turn of the prototype
(`src/workingModel/mainBotPrototypeOld.py` lines 85-122 and 154-161):
`run` appends the user message, then `_generate_response` waits on the
generation thread. If the cancel event is set, "Generation cancelled." is
printed and `None` is returned, so `run` appends nothing. Otherwise a stored
error is re-raised (no assistant message), and a returned response is appended
as one assistant message followed by `_trim_history`. `cancelSet` is whether
the cancel event was set when the wait loop ended; `genResult` is what the
generation thread stored. -/
def runTurnOld (history : List Message) (userInput : String) (cancelSet : Bool)
    (genResult : Except String String) : List Message × TurnReportOld :=
  let h := history ++ [userMsg userInput]
  if cancelSet then (h, TurnReportOld.cancelledOld)
  else
    match genResult with
    | Except.error e => (h, TurnReportOld.raisedOld e)
    | Except.ok text => (trimOld (h ++ [asstMsg text]), TurnReportOld.answeredOld text)

/-! ## The `/api/generate` route wrapper (`src/app.py`, lines 26-43)

`generate_text` at line 39 runs `async with LocalI(model_name, api_url) as
assistant:`. `LocalI.__init__` (`src/locali.py` line 8) declares three
required parameters besides `self`: `model_name`, `api_url`, `conversation`.
Python raises `TypeError` when a call supplies fewer positional arguments than
the required parameters, before the constructor body runs. -/

/-- The Python exceptions relevant to the route wrapper. -/
inductive PyError where
  | typeError
deriving DecidableEq, Repr

/-- Required parameter count of `LocalI.__init__` besides `self`
(`src/locali.py` line 8: `model_name`, `api_url`, `conversation`, none with a
default). -/
def localIRequiredArgs : Nat := 3

/-- Positional argument count of the constructor call in `app.generate_text`
(`src/app.py` line 39: `LocalI(model_name, api_url)`). -/
def appGenerateTextArgs : Nat := 2

/-- Python call protocol for a constructor with no defaults and no varargs:
the call binds iff the counts match, otherwise `TypeError` is raised before
the body runs. -/
def pyConstructorCall (required given : Nat) : Except PyError Unit :=
  if given = required then Except.ok () else Except.error PyError.typeError

/-- `app.generate_text` (`src/app.py` lines 37-43), embedded over whatever
string the streaming session would accumulate if it ran: the `LocalI`
constructor call is evaluated first; only if it binds does the session run and
its accumulated response get returned. -/
def appRouteGenerate (sessionResult : String) : Except PyError String :=
  match pyConstructorCall localIRequiredArgs appGenerateTextArgs with
  | Except.error e => Except.error e
  | Except.ok _ => Except.ok sessionResult

/-! ## Helper lemmas -/

theorem estTokens_cons (m : Message) (l : List Message) :
    estTokens (m :: l) = wordCount m.content + estTokens l := by
  simp [estTokens]

theorem estTokens_pop_second (m0 m1 : Message) (rest : List Message) :
    estTokens (m0 :: m1 :: rest) - wordCount m1.content = estTokens (m0 :: rest) := by
  simp only [estTokens_cons]
  omega

theorem trimAux_eq_trimSpecAux (maxTokens : Nat) (m0 : Message) :
    ∀ t : List Message, trimAux maxTokens m0 (estTokens (m0 :: t)) t = trimSpecAux maxTokens m0 t := by
  intro t
  induction t with
  | nil => rfl
  | cons m1 rest ih =>
      by_cases hg : estTokens (m0 :: m1 :: rest) > maxTokens ∧ (m0 :: m1 :: rest).length > 2
      · simp only [trimAux, trimSpecAux, hg, and_self, if_pos, estTokens_pop_second]
        exact ih
      · simp only [trimAux, trimSpecAux, hg, if_neg, not_false_eq_true]

theorem trim_eq_trimSpec (maxTokens : Nat) (h : List Message) :
    trim maxTokens h = trimSpec maxTokens h := by
  cases h with
  | nil => rfl
  | cons m0 t => exact trimAux_eq_trimSpecAux maxTokens m0 t

theorem trimSpecAux_shape (maxTokens : Nat) (m0 : Message) :
    ∀ t : List Message, ∃ k : Nat, trimSpecAux maxTokens m0 t = m0 :: t.drop k ∧
      (estTokens (m0 :: t.drop k) ≤ maxTokens ∨ (t.drop k).length ≤ 1) := by
  intro t
  induction t with
  | nil => exact ⟨0, rfl, Or.inr (by simp)⟩
  | cons m1 rest ih =>
      by_cases hg : estTokens (m0 :: m1 :: rest) > maxTokens ∧ (m0 :: m1 :: rest).length > 2
      · obtain ⟨k, hk, hpost⟩ := ih
        refine ⟨k + 1, ?_, ?_⟩
        · simpa only [trimSpecAux, hg, and_self, if_pos, List.drop_succ_cons] using hk
        · simpa only [List.drop_succ_cons] using hpost
      · refine ⟨0, ?_, ?_⟩
        · simp only [trimSpecAux, hg, if_neg, not_false_eq_true, List.drop_zero]
        · rw [Classical.not_and_iff_or_not_not] at hg
          simp only [List.drop_zero]
          rcases hg with hg | hg
          · exact Or.inl (by omega)
          · exact Or.inr (by simp only [List.length_cons] at hg ⊢; omega)

theorem processLines_eq_extractResponses :
    ∀ ls : List StreamLine, (∀ l ∈ ls, l.benign = true) →
      processLines ls = extractResponses ls := by
  intro ls
  induction ls with
  | nil => intro _; rfl
  | cons l rest ih =>
      intro hb
      have hl : l.benign = true := hb l (List.mem_cons_self l rest)
      have hrest : ∀ x ∈ rest, x.benign = true := fun x hx => hb x (List.mem_cons_of_mem l hx)
      cases l with
      | emptyLine => simpa [processLines, extractResponses] using ih hrest
      | malformed => simpa [processLines, extractResponses] using ih hrest
      | obj r d =>
          cases r with
          | none => simpa [processLines, extractResponses] using ih hrest
          | some txt =>
              simp only [processLines, extractResponses, List.filterMap_cons]
              exact congrArg (txt :: ·) (ih hrest)
      | nonDict => simp [StreamLine.benign] at hl
      | netError => simp [StreamLine.benign] at hl

theorem processLines_until_netError :
    ∀ ls rest : List StreamLine, (∀ l ∈ ls, l.benign = true) →
      processLines (ls ++ StreamLine.netError :: rest) = extractResponses ls := by
  intro ls rest
  induction ls with
  | nil => intro _; rfl
  | cons l tl ih =>
      intro hb
      have hl : l.benign = true := hb l (List.mem_cons_self l tl)
      have htl : ∀ x ∈ tl, x.benign = true := fun x hx => hb x (List.mem_cons_of_mem l hx)
      cases l with
      | emptyLine => simpa [processLines, extractResponses] using ih htl
      | malformed => simpa [processLines, extractResponses] using ih htl
      | obj r d =>
          cases r with
          | none => simpa [processLines, extractResponses] using ih htl
          | some txt =>
              simp only [List.cons_append, processLines, extractResponses, List.filterMap_cons]
              exact congrArg (txt :: ·) (ih htl)
      | nonDict => simp [StreamLine.benign] at hl
      | netError => simp [StreamLine.benign] at hl

/-! ## Claim theorems -/

/-- Claim C1, counterexample: the stream consisting of the single valid JSON
line `{"done": true}` has one valid JSON line and no malformed lines, yet the
decode loop of `LocalI.generate_text` produces zero fragments, not one: a
valid line without a `"response"` key contributes nothing. -/
theorem c1_counterexample :
    processLines [StreamLine.obj none true] = [] ∧
    (processLines [StreamLine.obj none true]).length ≠ 1 := by
  decide

/-- Claim C1 (amended): for every response stream of JSON object lines, empty
lines and malformed lines (no valid non-container JSON and no read failures),
the fragment sequence of the decode loop is exactly the `"response"` texts of
the object lines that carry one, in stream order: one entry per
response-carrying line, zero entries for malformed, empty and
response-less lines, and no line of these kinds ever aborts the stream. -/
theorem c1_amended (ls : List StreamLine) (hb : ∀ l ∈ ls, l.benign = true) :
    processLines ls = extractResponses ls :=
  processLines_eq_extractResponses ls hb

/-- Witness for C1 (amended): a concrete stream interleaving two malformed
lines, an empty line and a bare done marker with two response lines yields
exactly the two response texts in order. -/
theorem c1_amended_witness :
    processLines [StreamLine.malformed, StreamLine.obj (some "a") false,
      StreamLine.emptyLine, StreamLine.obj none true, StreamLine.malformed,
      StreamLine.obj (some "b") false] = ["a", "b"] :=
  (c1_amended _ (by decide)).trans (by decide)

/-- Claim C2, counterexample: for the history system + two complete pairs
`[s, "a b c d", "x", "y", "z"]` and ceiling 5, `trim` removes only the user
half of the oldest pair: the result keeps the orphaned assistant reply
`"x"` at index 1, has even length 4, and is stabilized strictly below the
ceiling (estimate 4 < 5) — so trimming neither removes pairs together nor
leaves an odd-length history. -/
theorem c2_counterexample :
    trim 5 [sysMsg "s", userMsg "a b c d", asstMsg "x", userMsg "y", asstMsg "z"] =
      [sysMsg "s", asstMsg "x", userMsg "y", asstMsg "z"] ∧
    estTokens (trim 5 [sysMsg "s", userMsg "a b c d", asstMsg "x", userMsg "y", asstMsg "z"]) < 5 ∧
    (trim 5 [sysMsg "s", userMsg "a b c d", asstMsg "x", userMsg "y", asstMsg "z"]).length % 2 = 0 := by
  decide

/-- Claim C2 (amended): for every ceiling and every nonempty history, `trim`
never removes the message at index 0 — the result is the original head
followed by a suffix of the original tail, messages being removed one at a
time from index 1 (not in user/assistant pairs) — and trimming stops exactly
when the estimate is at most the ceiling or at most two messages remain; the
stabilized length can therefore be even, with an orphaned assistant half. -/
theorem c2_amended (maxTokens : Nat) (m0 : Message) (t : List Message) :
    (trim maxTokens (m0 :: t)).head? = some m0 ∧
    (trim maxTokens (m0 :: t)).tail.IsSuffix t ∧
    (estTokens (trim maxTokens (m0 :: t)) ≤ maxTokens ∨ (trim maxTokens (m0 :: t)).length ≤ 2) := by
  obtain ⟨k, hk, hpost⟩ := trimSpecAux_shape maxTokens m0 t
  have htrim : trim maxTokens (m0 :: t) = m0 :: t.drop k :=
    (trim_eq_trimSpec maxTokens (m0 :: t)).trans hk
  refine ⟨?_, ?_, ?_⟩
  · rw [htrim]; rfl
  · rw [htrim]; exact List.drop_suffix k t
  · rw [htrim]
    rcases hpost with hp | hp
    · exact Or.inl hp
    · exact Or.inr (by simp only [List.length_cons]; omega)

/-- Claim C3: a turn cancelled by the operator appends no assistant message:
in `src/main.py` a `KeyboardInterrupt` leaves the history as the prior
history plus the user message only, with the cancellation notice reported;
in the prototype, a set cancel event makes `_generate_response` return `None`
for every generation result, so `run` appends nothing either; and the
cancelled report is distinct from every normal-completion report, with no
assistant text delivered. -/
theorem c3_cancellation (h : List Message) (input : String) :
    generateTurn h input TurnEvent.interrupted =
      (h ++ [userMsg input], TurnReport.cancelledNotice) ∧
    (∀ g : Except String String,
      runTurnOld h input true g = (h ++ [userMsg input], TurnReportOld.cancelledOld)) ∧
    (∀ t : String, TurnReport.cancelledNotice ≠ TurnReport.answered t) := by
  exact ⟨rfl, fun g => rfl, fun t heq => TurnReport.noConfusion heq⟩

/-- Claim C4, counterexample: on a non-2xx status, `generate_text` does not
surface any error to the caller: the `ClientResponseError` raised by
`raise_for_status` is caught by the blanket `except aiohttp.ClientError`
handler and only logged, so the call returns normally with zero fragments
(here despite a response-carrying line being available in the body), rather
than failing with a surfaced `HTTPStatusError`. -/
theorem c4_counterexample :
    generate_text true [sysMsg "s"] "hi"
        (HttpResult.response false [StreamLine.obj (some "x") false]) =
      ([sysMsg "s", userMsg "hi"], Except.ok []) ∧
    (generate_text true [sysMsg "s"] "hi"
        (HttpResult.response false [StreamLine.obj (some "x") false])).2 ≠
      Except.error GenError.sessionNotInitialized := by
  decide

/-- Claim C4 (amended): when the serving endpoint returns a non-success
status, the error raised by `raise_for_status` is caught and logged inside
`generate_text`; the caller receives an empty fragment sequence with no
exception, and the conversation is left with the user turn appended and no
assistant reply. -/
theorem c4_amended (conv : List Message) (prompt : String) (lines : List StreamLine) :
    generate_text true conv prompt (HttpResult.response false lines) =
      (conv ++ [userMsg prompt], Except.ok []) :=
  rfl

/-- Claim C5: a network-level error raised during streaming after at least
one fragment was produced is caught and logged and ends the fragment
sequence: the caller of `generate_text` receives exactly the fragments of
the lines before the error, no exception, and the conversation holds one
assistant message per delivered fragment. -/
theorem c5_stream_error_drain (conv : List Message) (prompt : String)
    (good rest : List StreamLine) (hb : ∀ l ∈ good, l.benign = true)
    (_hfrag : 0 < (extractResponses good).length) :
    generate_text true conv prompt
        (HttpResult.response true (good ++ StreamLine.netError :: rest)) =
      (conv ++ [userMsg prompt] ++ (extractResponses good).map asstMsg,
        Except.ok (extractResponses good)) := by
  have hp := processLines_until_netError good rest hb
  simp [generate_text, hp]

/-- Witness for C5: one fragment is produced, then a read error occurs; the
caller gets exactly that fragment and a normal end, and the line after the
error is never delivered. -/
theorem c5_stream_error_drain_witness :
    generate_text true [sysMsg "s"] "p"
        (HttpResult.response true
          ([StreamLine.obj (some "a") false] ++
            StreamLine.netError :: [StreamLine.obj (some "zz") false])) =
      ([sysMsg "s", userMsg "p", asstMsg "a"], Except.ok ["a"]) :=
  (c5_stream_error_drain [sysMsg "s"] "p" [StreamLine.obj (some "a") false]
      [StreamLine.obj (some "zz") false] (by decide) (by decide)).trans (by decide)

/-- Claim C6, counterexample: in the scenario (system message, user submits
"hello", stream `{"response":"Hi"}`, `{"response":" there"}`, `{"done":true}`)
the conversation after `generate_text` has length 4, not 3, and contains no
message "Hi there": line 42 of `src/locali.py` appends each fragment as its
own assistant message, so no single concatenated assistant message exists. -/
theorem c6_counterexample :
    (generate_text true [sysMsg "You are X."] "hello"
        (HttpResult.response true [StreamLine.obj (some "Hi") false,
          StreamLine.obj (some " there") false, StreamLine.obj none true])).1.length = 4 ∧
    (4 : Nat) ≠ 3 ∧
    asstMsg "Hi there" ∉ (generate_text true [sysMsg "You are X."] "hello"
        (HttpResult.response true [StreamLine.obj (some "Hi") false,
          StreamLine.obj (some " there") false, StreamLine.obj none true])).1 := by
  decide

/-- Claim C6 (amended): in the scenario the caller observes the fragments
"Hi" and " there" in that order and their accumulation (the loop of
`app.generate_text`) equals "Hi there"; the conversation ends as system,
user, and one assistant message per fragment — "Hi" and " there" as two
separate assistant messages — for a final length of 4. -/
theorem c6_amended :
    generate_text true [sysMsg "You are X."] "hello"
        (HttpResult.response true [StreamLine.obj (some "Hi") false,
          StreamLine.obj (some " there") false, StreamLine.obj none true]) =
      ([sysMsg "You are X.", userMsg "hello", asstMsg "Hi", asstMsg " there"],
        Except.ok ["Hi", " there"]) ∧
    accumulateResponse ["Hi", " there"] = "Hi there" := by
  decide

/-- Claim C7, counterexample: a line carrying the completion flag does not end
the fragment sequence: after the bare done marker `{"done":true}`, the
response line that follows still yields its fragment, so the sequence is
["after"], not empty as the claim requires. -/
theorem c7_counterexample :
    processLines [StreamLine.obj none true, StreamLine.obj (some "after") false] = ["after"] ∧
    ["after"] ≠ ([] : List String) := by
  decide

/-- Claim C7 (amended): the decode loop never inspects the done flag: a line
carrying it yields its `"response"` text if one is present and nothing
otherwise, and the stream continues with the later lines either way; no
terminal marker is produced. -/
theorem c7_amended (r : Option String) (rest : List StreamLine) :
    processLines (StreamLine.obj r true :: rest) = r.toList ++ processLines rest := by
  cases r <;> simp [processLines]

/-- Claim C8: the estimate used by `_trim_history` is the whitespace-delimited
word count summed over all message contents, and the loop — which maintains a
running counter decremented per removed message — removes the message at
index 1 exactly while the recomputed estimate exceeds the ceiling and the
length exceeds 2: the code trim equals the spec trim at every ceiling, and
`_trim_history` equals the spec trim at `MAX_CONTEXT_TOKENS`. -/
theorem c8_trim_refines_spec (maxTokens : Nat) (h : List Message) :
    trim maxTokens h = trimSpec maxTokens h ∧
    trim_history h = trimSpec MAX_CONTEXT_TOKENS h :=
  ⟨trim_eq_trimSpec maxTokens h, trim_eq_trimSpec MAX_CONTEXT_TOKENS h⟩

/-- Claim C9: calling `generate_text` without an initialized session raises
`RuntimeError`, but only after the user prompt has already been appended to
the conversation (line 23 precedes the session check at line 24): the
returned conversation is the input conversation plus the user message — a
genuine mutation — for every prompt and every HTTP outcome. -/
theorem c9_uninit_session (conv : List Message) (prompt : String) (http : HttpResult) :
    generate_text false conv prompt http =
      (conv ++ [userMsg prompt], Except.error GenError.sessionNotInitialized) ∧
    conv ++ [userMsg prompt] ≠ conv := by
  refine ⟨rfl, fun heq => ?_⟩
  have hlen := congrArg List.length heq
  simp at hlen

/-- Claim C10: the `/api/generate` route wrapper constructs `LocalI` with two
arguments while `LocalI.__init__` requires three, so the constructor call
raises `TypeError` before any network request, and the route returns the
error for every value the streaming session could have produced: it can never
return a generated response. -/
theorem c10_route_type_error (sessionResult : String) :
    appRouteGenerate sessionResult = Except.error PyError.typeError ∧
    appGenerateTextArgs ≠ localIRequiredArgs :=
  ⟨rfl, by decide⟩

end VerseAi
